import Mathlib

/-!
Shallow embedding of the interactive live-streaming control plane
(stream-key manager, chat engine, reaction engine, VOD/recording
coordinator, analytics aggregator) together with proofs about its
operations.

Conventions of the embedding:
* Go `time.Time` / `time.Duration` values are integer nanoseconds (`Int`);
  `time.Now()` is an explicit `now` argument threaded through each operation.
* Go maps are association lists with unique keys (`mapLookup` / `mapInsert` /
  `mapErase`); map iteration only ever feeds order-insensitive folds here.
* Fallible operations return `Except` with one error constructor per distinct
  error the source can return.
* Randomness (stream-key generation, record identifiers) is an explicit input.
* Floating point appears only in the 95%-watched test, modelled exactly over
  the integers (`19 * duration ≤ 20 * position`).
-/

namespace Streaming

/-- Lookup in a Go map modelled as an association list. -/
def mapLookup {α : Type} (m : List (String × α)) (k : String) : Option α :=
  match m with
  | [] => none
  | (k1, v) :: rest => if k1 = k then some v else mapLookup rest k

/-- Write to a Go map: overwrite the existing binding in place, append if fresh. -/
def mapInsert {α : Type} (m : List (String × α)) (k : String) (v : α) :
    List (String × α) :=
  match m with
  | [] => [(k, v)]
  | (k1, v1) :: rest =>
    if k1 = k then (k, v) :: rest else (k1, v1) :: mapInsert rest k v

/-- Go `delete` on a map. Go map keys are unique, so dropping every binding of
`k` coincides with deleting the single one. -/
def mapErase {α : Type} (m : List (String × α)) (k : String) : List (String × α) :=
  m.filter (fun kv => !(kv.1 = k : Bool))

/-- Remove the first occurrence of `k` from a slice of keys: this is the
`for i, x := range l; if x == k ... break` deletion idiom of the source. -/
def removeFirst (l : List String) (k : String) : List String :=
  match l with
  | [] => []
  | x :: xs => if x = k then xs else x :: removeFirst xs k

/-- Nanoseconds in a second (`time.Second`). -/
def nsPerSecond : Int := 1000000000

/-- Nanoseconds in a minute (`time.Minute`). -/
def nsPerMinute : Int := 60 * nsPerSecond

/-- Nanoseconds in a day; `AddDate(0, 0, d)` is modelled as `d` of these. -/
def nsPerDay : Int := 86400 * nsPerSecond

/-! ## Stream keys (`pkg/streaming/streamkey.go`) -/

/-- `StreamPermissions` of streamkey.go. -/
structure StreamPermissions where
  canPublishVideo : Bool
  canPublishAudio : Bool
  canScreenShare : Bool
  canRecord : Bool
  maxViewers : Int
  maxDurationMins : Int
  enableChat : Bool
  enableReactions : Bool
  enableModeration : Bool
deriving DecidableEq

/-- The default permission bundle of `GenerateStreamKey`. -/
def defaultStreamPermissions : StreamPermissions where
  canPublishVideo := true
  canPublishAudio := true
  canScreenShare := true
  canRecord := false
  maxViewers := 10000
  maxDurationMins := 180
  enableChat := true
  enableReactions := true
  enableModeration := true

/-- `StreamKey` of streamkey.go. -/
structure StreamKey where
  key : String
  streamerID : String
  roomName : String
  isActive : Bool
  createdAt : Int
  expiresAt : Option Int
  metadata : List (String × String)
  usageCount : Int
  lastUsedAt : Option Int
  permissions : Option StreamPermissions
deriving DecidableEq

/-- The state of `StreamKeyManager`: the key map and the per-streamer index. -/
structure StreamKeyManager where
  keys : List (String × StreamKey)
  streamerKeys : List (String × List String)
deriving DecidableEq

/-- The distinct errors of the stream-key operations. -/
inductive KeyError where
  | notFound
  | inactive
  | expired
deriving DecidableEq

/-- `GenerateStreamKey`. The 256-bit random hex key is an explicit input
(randomness is an input of the model). -/
def StreamKeyManager.GenerateStreamKey (m : StreamKeyManager) (now : Int)
    (key streamerID roomName : String) (permissions : Option StreamPermissions)
    (expiresIn : Option Int) : StreamKey × StreamKeyManager :=
  let perms := match permissions with
    | none => defaultStreamPermissions
    | some p => p
  let sk : StreamKey :=
    { key := key, streamerID := streamerID, roomName := roomName,
      isActive := true, createdAt := now,
      expiresAt := expiresIn.map (fun d => now + d),
      metadata := [], usageCount := 0, lastUsedAt := none,
      permissions := some perms }
  (sk, { keys := mapInsert m.keys key sk,
         streamerKeys := mapInsert m.streamerKeys streamerID
           ((mapLookup m.streamerKeys streamerID).getD [] ++ [key]) })

/-- `ValidateStreamKey`: not-found, then inactive, then expiry
(`time.Now().After(expiresAt)`, a strict comparison). -/
def StreamKeyManager.ValidateStreamKey (m : StreamKeyManager) (now : Int)
    (key : String) : Except KeyError StreamKey :=
  match mapLookup m.keys key with
  | none => .error .notFound
  | some sk =>
    if sk.isActive = false then .error .inactive
    else
      match sk.expiresAt with
      | some e => if now > e then .error .expired else .ok sk
      | none => .ok sk

/-- `MarkKeyAsUsed`: bumps `usageCount` and `lastUsedAt`. -/
def StreamKeyManager.MarkKeyAsUsed (m : StreamKeyManager) (now : Int)
    (key : String) : Except KeyError StreamKeyManager :=
  match mapLookup m.keys key with
  | none => .error .notFound
  | some sk =>
    let sk2 := { sk with usageCount := sk.usageCount + 1, lastUsedAt := some now }
    .ok { m with keys := mapInsert m.keys key sk2 }

/-- `RevokeStreamKey`: flips `isActive` to false, keeps the entry. -/
def StreamKeyManager.RevokeStreamKey (m : StreamKeyManager) (key : String) :
    Except KeyError StreamKeyManager :=
  match mapLookup m.keys key with
  | none => .error .notFound
  | some sk =>
    .ok { m with keys := mapInsert m.keys key { sk with isActive := false } }

/-- `DeleteStreamKey`: physical removal plus cleanup of the streamer index
(the index entry is only rewritten when the key actually occurs in it). -/
def StreamKeyManager.DeleteStreamKey (m : StreamKeyManager) (key : String) :
    Except KeyError StreamKeyManager :=
  match mapLookup m.keys key with
  | none => .error .notFound
  | some sk =>
    let streamerKeys :=
      match mapLookup m.streamerKeys sk.streamerID with
      | none => m.streamerKeys
      | some l =>
        if key ∈ l then mapInsert m.streamerKeys sk.streamerID (removeFirst l key)
        else m.streamerKeys
    .ok { keys := mapErase m.keys key, streamerKeys := streamerKeys }

/-- `UpdateStreamKeyMetadata`: merges the given pairs into the key's metadata. -/
def StreamKeyManager.UpdateStreamKeyMetadata (m : StreamKeyManager) (key : String)
    (metadata : List (String × String)) : Except KeyError StreamKeyManager :=
  match mapLookup m.keys key with
  | none => .error .notFound
  | some sk =>
    let merged := metadata.foldl (fun md kv => mapInsert md kv.1 kv.2) sk.metadata
    let sk2 := { sk with metadata := merged }
    .ok { m with keys := mapInsert m.keys key sk2 }

/-- The expiry test of `CleanupExpiredKeys` (`now.After(expiresAt)`). -/
def keyExpired (now : Int) (sk : StreamKey) : Bool :=
  match sk.expiresAt with
  | some e => decide (now > e)
  | none => false

/-- `CleanupExpiredKeys`: removes every expired key and scrubs the streamer
index; returns the new state and the count swept. -/
def StreamKeyManager.CleanupExpiredKeys (m : StreamKeyManager) (now : Int) :
    StreamKeyManager × Int :=
  let expired := m.keys.filter (fun kv => keyExpired now kv.2)
  let keys := m.keys.filter (fun kv => !keyExpired now kv.2)
  let streamerKeys := expired.foldl
    (fun sks kv =>
      match mapLookup sks kv.2.streamerID with
      | none => sks
      | some l =>
        if kv.1 ∈ l then mapInsert sks kv.2.streamerID (removeFirst l kv.1)
        else sks)
    m.streamerKeys
  ({ keys := keys, streamerKeys := streamerKeys }, expired.length)

/-- `GetActiveStreamCount`: keys marked active used within the last 5 minutes. -/
def StreamKeyManager.GetActiveStreamCount (m : StreamKeyManager) (now : Int) : Int :=
  m.keys.foldl
    (fun c kv =>
      match kv.2.lastUsedAt with
      | some t => if kv.2.isActive ∧ now - t < 5 * nsPerMinute then c + 1 else c
      | none => c)
    0

/-- The state-changing operations of the manager, each timestamped when applied.
`generate` carries the random key value as data. -/
inductive KeyOp where
  | generate (key streamerID roomName : String)
      (permissions : Option StreamPermissions) (expiresIn : Option Int)
  | markUsed (key : String)
  | revoke (key : String)
  | deleteKey (key : String)
  | updateMetadata (key : String) (metadata : List (String × String))
  | cleanup
deriving DecidableEq

/-- Apply one manager operation at time `now`; failed operations leave the
state unchanged, exactly as the source methods do. -/
def StreamKeyManager.applyOp (m : StreamKeyManager) (now : Int) (op : KeyOp) :
    StreamKeyManager :=
  match op with
  | .generate key sid room perms expIn =>
    (m.GenerateStreamKey now key sid room perms expIn).2
  | .markUsed key =>
    match m.MarkKeyAsUsed now key with
    | .ok m2 => m2
    | .error _ => m
  | .revoke key =>
    match m.RevokeStreamKey key with
    | .ok m2 => m2
    | .error _ => m
  | .deleteKey key =>
    match m.DeleteStreamKey key with
    | .ok m2 => m2
    | .error _ => m
  | .updateMetadata key md =>
    match m.UpdateStreamKeyMetadata key md with
    | .ok m2 => m2
    | .error _ => m
  | .cleanup => (m.CleanupExpiredKeys now).1

/-- Apply a timestamped sequence of manager operations. -/
def StreamKeyManager.applyOps (m : StreamKeyManager) (ops : List (Int × KeyOp)) :
    StreamKeyManager :=
  ops.foldl (fun s p => s.applyOp p.1 p.2) m

/-- Whether an operation is a `generate` of exactly the key `k`. -/
def opGeneratesKey (k : String) (p : Int × KeyOp) : Bool :=
  match p.2 with
  | .generate key _ _ _ _ => decide (key = k)
  | _ => false

/-! ## Chat engine (`ChatService` of the streaming package) -/

/-- `ChatMessageType`. -/
inductive ChatMessageType where
  | text
  | emoji
  | systemNotice
  | gift
  | joinLeave
deriving DecidableEq

/-- `ChatMessage`. -/
structure ChatMessage where
  id : String
  roomName : String
  senderID : String
  senderName : String
  content : String
  timestamp : Int
  messageType : ChatMessageType
  mentionedUsers : List String
  isDeleted : Bool
  isModerated : Bool
  replyTo : Option String
deriving DecidableEq

/-- `ChatParticipant`. -/
structure ChatParticipant where
  identity : String
  name : String
  isModerator : Bool
  isMuted : Bool
  joinedAt : Int
  messageCount : Int
deriving DecidableEq

/-- `ChatRoomSettings`. -/
structure ChatRoomSettings where
  maxMessageLength : Nat
  maxMessagesPerMin : Nat
  enableEmojis : Bool
  enableMentions : Bool
  enableModeration : Bool
  slowModeDelay : Int
  requireVerification : Bool
  enableBadWords : Bool
deriving DecidableEq

/-- The defaults installed by `CreateChatRoom` when no settings are given. -/
def defaultChatRoomSettings : ChatRoomSettings where
  maxMessageLength := 500
  maxMessagesPerMin := 20
  enableEmojis := true
  enableMentions := true
  enableModeration := true
  slowModeDelay := 0
  requireVerification := false
  enableBadWords := true

/-- `ChatRoom`. -/
structure ChatRoom where
  roomName : String
  messages : List ChatMessage
  participants : List (String × ChatParticipant)
  moderators : List (String × Bool)
  bannedUsers : List (String × Int)
  createdAt : Int
  settings : ChatRoomSettings
deriving DecidableEq

/-- The state of `ChatService`: the room map and the configured bad-word list. -/
structure ChatService where
  rooms : List (String × ChatRoom)
  badWords : List String
deriving DecidableEq

/-- The bad-word list installed by `NewChatService`. -/
def defaultBadWords : List String := ["spam", "badword1", "badword2"]

/-- The distinct errors of the chat operations. -/
inductive ChatError where
  | roomAlreadyExists
  | roomNotFound
  | bannedUntil (t : Int)
  | participantNotInRoom
  | participantMuted
  | messageTooLong
  | rateLimited
  | slowModeActive
  | notModerator
  | messageNotFound
  | participantNotFound
deriving DecidableEq

/-- `replaceWord`: the source leaves this a stub that returns the content
unchanged (its comment promises asterisk masking). -/
def replaceWord (content : String) (_word : String) : String := content

/-- `ChatService.filterBadWords`: folds `replaceWord` over the configured list. -/
def filterBadWords (badWords : List String) (content : String) : String :=
  badWords.foldl (fun c w => replaceWord c w) content

/-- `ChatService.CreateChatRoom`. -/
def ChatService.CreateChatRoom (cs : ChatService) (now : Int) (roomName : String)
    (settings : Option ChatRoomSettings) : Except ChatError ChatRoom × ChatService :=
  match mapLookup cs.rooms roomName with
  | some _ => (.error .roomAlreadyExists, cs)
  | none =>
    let st := settings.getD defaultChatRoomSettings
    let room : ChatRoom :=
      { roomName := roomName, messages := [], participants := [],
        moderators := [], bannedUsers := [], createdAt := now, settings := st }
    (.ok room, { cs with rooms := mapInsert cs.rooms roomName room })

/-- `ChatService.JoinChatRoom`: ban gate (expired bans are cleared), participant
record, moderator set, and the system join message. -/
def ChatService.JoinChatRoom (cs : ChatService) (now : Int)
    (roomName participantID participantName : String) (isModerator : Bool) :
    Except ChatError Unit × ChatService :=
  match mapLookup cs.rooms roomName with
  | none => (.error .roomNotFound, cs)
  | some room =>
    match mapLookup room.bannedUsers participantID with
    | some banExpiry =>
      if now < banExpiry then (.error (.bannedUntil banExpiry), cs)
      else
        let room2 := joinChatRoomBody now participantID participantName isModerator
          { room with bannedUsers := mapErase room.bannedUsers participantID }
        (.ok (), { cs with rooms := mapInsert cs.rooms roomName room2 })
    | none =>
      let room2 := joinChatRoomBody now participantID participantName isModerator room
      (.ok (), { cs with rooms := mapInsert cs.rooms roomName room2 })
where
  joinChatRoomBody (now : Int) (participantID participantName : String)
      (isModerator : Bool) (room : ChatRoom) : ChatRoom :=
    let participant : ChatParticipant :=
      { identity := participantID, name := participantName,
        isModerator := isModerator, isMuted := false,
        joinedAt := now, messageCount := 0 }
    let systemMsg : ChatMessage :=
      { id := "sys-" ++ toString now, roomName := room.roomName,
        senderID := "system", senderName := "System",
        content := participantName ++ " joined the chat", timestamp := now,
        messageType := .joinLeave, mentionedUsers := [],
        isDeleted := false, isModerated := false, replyTo := none }
    let moderators := if isModerator then mapInsert room.moderators participantID true
      else room.moderators
    { room with
      participants := mapInsert room.participants participantID participant,
      moderators := moderators,
      messages := room.messages ++ [systemMsg] }

/-- `ChatService.countRecentMessages`: walks the log newest-first and stops at
the first message strictly older than `now - duration`. -/
def countRecentAux (msgs : List ChatMessage) (senderID : String) (cutoff : Int) : Nat :=
  match msgs with
  | [] => 0
  | msg :: rest =>
    if msg.timestamp < cutoff then 0
    else (if msg.senderID = senderID then 1 else 0) + countRecentAux rest senderID cutoff

/-- `countRecentMessages` proper, over the room's append-ordered log. -/
def countRecentMessages (room : ChatRoom) (senderID : String)
    (duration now : Int) : Nat :=
  countRecentAux room.messages.reverse senderID (now - duration)

/-- `ChatService.getLastMessage`: the sender's newest message, if any. -/
def getLastMessage (room : ChatRoom) (senderID : String) : Option ChatMessage :=
  room.messages.reverse.find? (fun msg => msg.senderID == senderID)

/-- The body of `ChatService.SendMessage` after the room lookup. Returns the
result and the updated room: the auto-created participant record persists even
when a later check fails, exactly as in the source. -/
def sendMessageRoom (badWords : List String) (room : ChatRoom) (now : Int)
    (senderID content : String) (messageType : ChatMessageType)
    (mentionedUsers : List String) (replyTo : Option String) :
    Except ChatError ChatMessage × ChatRoom :=
  let auto :=
    match mapLookup room.participants senderID with
    | some p => (p, room)
    | none =>
      let p : ChatParticipant :=
        { identity := senderID, name := senderID, isModerator := false,
          isMuted := false, joinedAt := now, messageCount := 0 }
      (p, { room with participants := mapInsert room.participants senderID p })
  let participant := auto.1
  let room := auto.2
  if participant.isMuted then (.error .participantMuted, room)
  else if room.settings.maxMessageLength < content.utf8ByteSize then
    (.error .messageTooLong, room)
  else if room.settings.maxMessagesPerMin ≤ countRecentMessages room senderID nsPerMinute now then
    (.error .rateLimited, room)
  else
    let slowModeTripped : Bool :=
      if 0 < room.settings.slowModeDelay then
        match getLastMessage room senderID with
        | some lastMsg => decide (now - lastMsg.timestamp < room.settings.slowModeDelay)
        | none => false
      else false
    if slowModeTripped then (.error .slowModeActive, room)
    else
      let content2 := if room.settings.enableBadWords then filterBadWords badWords content
        else content
      let message : ChatMessage :=
        { id := "msg-" ++ toString now ++ "-" ++ senderID,
          roomName := room.roomName, senderID := senderID,
          senderName := participant.name, content := content2, timestamp := now,
          messageType := messageType, mentionedUsers := mentionedUsers,
          isDeleted := false, isModerated := false, replyTo := replyTo }
      let participant2 := { participant with messageCount := participant.messageCount + 1 }
      let room2 := { room with
                     messages := room.messages ++ [message],
                     participants := mapInsert room.participants senderID participant2 }
      (.ok message, room2)

/-- `ChatService.SendMessage`. -/
def ChatService.SendMessage (cs : ChatService) (now : Int)
    (roomName senderID content : String) (messageType : ChatMessageType)
    (mentionedUsers : List String) (replyTo : Option String) :
    Except ChatError ChatMessage × ChatService :=
  match mapLookup cs.rooms roomName with
  | none => (.error .roomNotFound, cs)
  | some room =>
    let r := sendMessageRoom cs.badWords room now senderID content messageType
      mentionedUsers replyTo
    (r.1, { cs with rooms := mapInsert cs.rooms roomName r.2 })

/-- `ChatService.MuteParticipant` (the synchronous part; the deferred unmute
timer is the separate event `muteTimerFire` below). -/
def ChatService.MuteParticipant (cs : ChatService)
    (roomName participantID moderatorID : String) :
    Except ChatError Unit × ChatService :=
  match mapLookup cs.rooms roomName with
  | none => (.error .roomNotFound, cs)
  | some room =>
    if (mapLookup room.moderators moderatorID).getD false = false then
      (.error .notModerator, cs)
    else
      match mapLookup room.participants participantID with
      | none => (.error .participantNotFound, cs)
      | some participant =>
        let muted := { participant with isMuted := true }
        let room2 := { room with participants := mapInsert room.participants participantID muted }
        (.ok (), { cs with rooms := mapInsert cs.rooms roomName room2 })

/-- The deferred unmute closure scheduled by `MuteParticipant` with a positive
duration: when it fires it clears `isMuted` if the participant is still there. -/
def ChatService.muteTimerFire (cs : ChatService) (roomName participantID : String) :
    ChatService :=
  match mapLookup cs.rooms roomName with
  | none => cs
  | some room =>
    match mapLookup room.participants participantID with
    | none => cs
    | some p =>
      let unmuted := { p with isMuted := false }
      let room2 := { room with participants := mapInsert room.participants participantID unmuted }
      { cs with rooms := mapInsert cs.rooms roomName room2 }

/-- Helper used in scenario statements: whether a send result is a success. -/
def chatOk (r : Except ChatError ChatMessage) : Bool :=
  match r with
  | .ok _ => true
  | .error _ => false

/-- Run a sequence of sends of `"hi"` from one sender at the given times,
collecting each result; models repeated `send` calls against the service. -/
def sendTimes (cs : ChatService) (roomName senderID : String) (times : List Int) :
    List (Except ChatError ChatMessage) × ChatService :=
  times.foldl
    (fun acc t =>
      let r := acc.2.SendMessage t roomName senderID "hi" .text [] none
      (acc.1 ++ [r.1], r.2))
    ([], cs)

/-! ## VOD / recording coordinator (`VODService` of the streaming package) -/

/-- `VODStatus`. -/
inductive VODStatus where
  | recording
  | processing
  | ready
  | failed
  | archived
  | deleted
deriving DecidableEq

/-- `VODRecording` (the fields the control plane reads or writes). -/
structure VODRecording where
  id : String
  roomName : String
  streamerID : String
  streamerName : String
  title : String
  description : String
  thumbnailURL : String
  videoURL : String
  fileSize : Int
  duration : Int
  status : VODStatus
  viewCount : Int
  recordedAt : Int
  publishedAt : Option Int
  expiresAt : Option Int
  isPublic : Bool
  tags : List String
  category : String
  metadata : List (String × String)
  averageViewDuration : Int
deriving DecidableEq

/-- `VODPlaybackSession`. -/
structure VODPlaybackSession where
  id : String
  recordingID : String
  userID : String
  startedAt : Int
  lastHeartbeat : Int
  currentPosition : Int
  watchDuration : Int
  completed : Bool
  quality : String
deriving DecidableEq

/-- `VODConfig` (the fields the embedded operations consult). -/
structure VODConfig where
  storagePath : String
  maxRecordingSize : Int
  defaultRetentionDays : Int
  autoPublish : Bool
  generateThumbnails : Bool
  sessionTimeout : Int
deriving DecidableEq

/-- The defaults of `NewVODService`. -/
def defaultVODConfig : VODConfig where
  storagePath := "/var/livekit/recordings"
  maxRecordingSize := 10737418240
  defaultRetentionDays := 30
  autoPublish := false
  generateThumbnails := true
  sessionTimeout := 5 * nsPerMinute

/-- The state of `VODService`: catalog, per-streamer index, playback sessions. -/
structure VODService where
  recordings : List (String × VODRecording)
  streamerRecordings : List (String × List String)
  playbackSessions : List (String × VODPlaybackSession)
  config : VODConfig
deriving DecidableEq

/-- The distinct errors of the VOD operations. -/
inductive VODError where
  | recordingNotFound
  | notRecordingStatus
  | notReady
  | notPublic
  | sessionNotFound
deriving DecidableEq

/-- `VODService.StartRecording`: reserves a fresh record in `recording` status.
The record id embeds `time.Now().UnixNano()`, modelled as `toString now`. -/
def VODService.StartRecording (vs : VODService) (now : Int)
    (roomName streamerID streamerName title : String) :
    VODRecording × VODService :=
  let recordingID := "rec-" ++ toString now ++ "-" ++ streamerID
  let expiresAt := if 0 < vs.config.defaultRetentionDays then
      some (now + vs.config.defaultRetentionDays * nsPerDay)
    else none
  let recording : VODRecording :=
    { id := recordingID, roomName := roomName, streamerID := streamerID,
      streamerName := streamerName, title := title, description := "",
      thumbnailURL := "", videoURL := "", fileSize := 0, duration := 0,
      status := .recording, viewCount := 0, recordedAt := now,
      publishedAt := none, expiresAt := expiresAt,
      isPublic := vs.config.autoPublish, tags := [], category := "",
      metadata := [], averageViewDuration := 0 }
  (recording,
   { vs with
     recordings := mapInsert vs.recordings recordingID recording,
     streamerRecordings := mapInsert vs.streamerRecordings streamerID
       ((mapLookup vs.streamerRecordings streamerID).getD [] ++ [recordingID]) })

/-- `VODService.StopRecording`: only a record in `recording` status may stop;
stores the reported duration and size and moves to `processing`. -/
def VODService.StopRecording (vs : VODService) (recordingID : String)
    (duration fileSize : Int) : Except VODError VODService :=
  match mapLookup vs.recordings recordingID with
  | none => .error .recordingNotFound
  | some recording =>
    if recording.status ≠ VODStatus.recording then .error .notRecordingStatus
    else
      let rec2 := { recording with
                    duration := duration, fileSize := fileSize,
                    status := VODStatus.processing }
      .ok { vs with recordings := mapInsert vs.recordings recordingID rec2 }

/-- The deferred `processRecording` task: thumbnail and video URLs, `ready`
status, and the auto-publish stamp. -/
def VODService.processRecording (vs : VODService) (now : Int) (recordingID : String) :
    VODService :=
  match mapLookup vs.recordings recordingID with
  | none => vs
  | some recording =>
    let thumb := if vs.config.generateThumbnails then "/thumbnails/" ++ recordingID ++ ".jpg"
      else recording.thumbnailURL
    let pubAt := if vs.config.autoPublish then some now else recording.publishedAt
    let rec2 := { recording with
                  thumbnailURL := thumb,
                  videoURL := "/videos/" ++ recordingID ++ ".mp4",
                  status := VODStatus.ready,
                  publishedAt := pubAt }
    { vs with recordings := mapInsert vs.recordings recordingID rec2 }

/-- `VODService.PublishRecording`: requires `ready`; sets `isPublic` and
`publishedAt`. -/
def VODService.PublishRecording (vs : VODService) (now : Int) (recordingID : String) :
    Except VODError VODService :=
  match mapLookup vs.recordings recordingID with
  | none => .error .recordingNotFound
  | some recording =>
    if recording.status ≠ VODStatus.ready then .error .notReady
    else
      let rec2 := { recording with isPublic := true, publishedAt := some now }
      .ok { vs with recordings := mapInsert vs.recordings recordingID rec2 }

/-- `VODService.StartPlaybackSession`: requires `ready` and public; increments
`viewCount`. The session id embeds the timestamp. -/
def VODService.StartPlaybackSession (vs : VODService) (now : Int)
    (recordingID userID quality : String) :
    Except VODError (VODPlaybackSession × VODService) :=
  match mapLookup vs.recordings recordingID with
  | none => .error .recordingNotFound
  | some recording =>
    if recording.status ≠ VODStatus.ready then .error .notReady
    else if recording.isPublic = false then .error .notPublic
    else
      let sessionID := "session-" ++ toString now ++ "-" ++ userID
      let session : VODPlaybackSession :=
        { id := sessionID, recordingID := recordingID, userID := userID,
          startedAt := now, lastHeartbeat := now, currentPosition := 0,
          watchDuration := 0, completed := false, quality := quality }
      let rec2 := { recording with viewCount := recording.viewCount + 1 }
      .ok (session,
        { vs with
          playbackSessions := mapInsert vs.playbackSessions sessionID session,
          recordings := mapInsert vs.recordings recordingID rec2 })

/-- `VODService.UpdatePlaybackSession`: refreshes the heartbeat and position
and latches `completed` once 95% of the recording's duration is reached. The
source's `float64(position) >= float64(duration)*0.95` is modelled exactly as
`19 * duration ≤ 20 * position`, guarded by `duration > 0`. -/
def VODService.UpdatePlaybackSession (vs : VODService) (now : Int)
    (sessionID : String) (position : Int) : Except VODError VODService :=
  match mapLookup vs.playbackSessions sessionID with
  | none => .error .sessionNotFound
  | some session =>
    let session2 := { session with
                      lastHeartbeat := now, currentPosition := position,
                      watchDuration := now - session.startedAt }
    let session3 :=
      match mapLookup vs.recordings session2.recordingID with
      | some recording =>
        if 0 < recording.duration ∧ 19 * recording.duration ≤ 20 * position then
          { session2 with completed := true }
        else session2
      | none => session2
    .ok { vs with playbackSessions := mapInsert vs.playbackSessions sessionID session3 }

/-- `VODService.EndPlaybackSession`: folds the session's watch duration into
the recording's running average (weighted by `viewCount`) and drops the
session. Go's integer duration division is truncated division. -/
def VODService.EndPlaybackSession (vs : VODService) (sessionID : String) :
    Except VODError VODService :=
  match mapLookup vs.playbackSessions sessionID with
  | none => .error .sessionNotFound
  | some session =>
    let recordings :=
      match mapLookup vs.recordings session.recordingID with
      | none => vs.recordings
      | some recording =>
        if 0 < recording.viewCount then
          let total := recording.averageViewDuration * (recording.viewCount - 1)
          let avg := Int.tdiv (total + session.watchDuration) recording.viewCount
          mapInsert vs.recordings session.recordingID
            ({ recording with averageViewDuration := avg })
        else vs.recordings
    .ok { vs with
          recordings := recordings,
          playbackSessions := mapErase vs.playbackSessions sessionID }

/-- `VODService.DeleteRecording`: flips the record to `deleted`, scrubs the
streamer index (first occurrence), and removes the catalog entry. -/
def VODService.DeleteRecording (vs : VODService) (recordingID : String) :
    Except VODError VODService :=
  match mapLookup vs.recordings recordingID with
  | none => .error .recordingNotFound
  | some recording =>
    let streamerRecordings :=
      match mapLookup vs.streamerRecordings recording.streamerID with
      | none => vs.streamerRecordings
      | some l =>
        if recordingID ∈ l then
          mapInsert vs.streamerRecordings recording.streamerID (removeFirst l recordingID)
        else vs.streamerRecordings
    .ok { vs with
          recordings := mapErase vs.recordings recordingID,
          streamerRecordings := streamerRecordings }

/-- `VODService.CleanupStaleSessions`: drops sessions whose last heartbeat is
older than the configured session timeout. -/
def VODService.CleanupStaleSessions (vs : VODService) (now : Int) : VODService × Int :=
  let stale := vs.playbackSessions.filter
    (fun kv => decide (vs.config.sessionTimeout < now - kv.2.lastHeartbeat))
  let kept := vs.playbackSessions.filter
    (fun kv => !decide (vs.config.sessionTimeout < now - kv.2.lastHeartbeat))
  ({ vs with playbackSessions := kept }, stale.length)

/-- The egress identifier returned by the encoder's start RPC. -/
structure EgressInfo where
  egressId : String
deriving DecidableEq

/-- The VOD part of the HTTP handler `handleStartRecording`: reserve the
record, then start the room-composite egress (its outcome is an input of the
model); on egress failure the reservation is deleted and the call fails; on
success the egress id is stored in the record's metadata. -/
def handleStartRecording (vs : VODService) (now : Int)
    (roomName streamerID streamerName title : String)
    (egressResult : Except String EgressInfo) :
    Except String (String × String) × VODService :=
  let r := vs.StartRecording now roomName streamerID streamerName title
  let recording := r.1
  let vs1 := r.2
  match egressResult with
  | .error e =>
    let vs2 := match vs1.DeleteRecording recording.id with
      | .ok v => v
      | .error _ => vs1
    (.error ("Failed to start egress: " ++ e), vs2)
  | .ok info =>
    let vs2 := match mapLookup vs1.recordings recording.id with
      | none => vs1
      | some rec0 =>
        let rec2 := { rec0 with metadata := mapInsert rec0.metadata "egress_id" info.egressId }
        { vs1 with recordings := mapInsert vs1.recordings recording.id rec2 }
    (.ok (recording.id, info.egressId), vs2)

/-- The VOD part of the HTTP handler `handleStopRecording`: the surface does
not know the real duration or size and always passes 0 for both. -/
def handleStopRecordingVOD (vs : VODService) (recordingID : String) :
    Except VODError VODService :=
  vs.StopRecording recordingID 0 0

/-! ## Analytics aggregator (`AnalyticsService` of the streaming package) -/

/-- `ViewerSession` of the analytics aggregator. -/
structure ViewerSession where
  viewerID : String
  roomName : String
  joinedAt : Int
  leftAt : Option Int
  watchDuration : Int
  messagesSent : Int
  reactionsSent : Int
  platform : String
  device : String
  country : String
  region : String
  avgBitrate : Int
  bufferingCount : Int
  qualityLevel : String
  connectionQuality : String
deriving DecidableEq

/-- A `(timestamp, value)` time-series sample; the float value is a rational. -/
structure TimeSeriesDataPoint where
  timestamp : Int
  value : ℚ
deriving DecidableEq

/-- `StreamAnalytics` (floats are rationals; they keep their Go zero values
under the event operations embedded here). -/
structure StreamAnalytics where
  roomName : String
  streamerID : String
  startTime : Int
  endTime : Option Int
  duration : Int
  totalViewers : Int
  peakViewers : Int
  currentViewers : Int
  averageViewers : ℚ
  uniqueViewers : Int
  viewerRetention : ℚ
  averageWatchTime : Int
  totalMessages : Int
  uniqueMessagers : Int
  messagesPerMinute : ℚ
  totalReactions : Int
  reactionsPerMinute : ℚ
  reactionBreakdown : List (String × Int)
  peakBitrate : Int
  viewersByCountry : List (String × Int)
  viewersByRegion : List (String × Int)
  viewersByPlatform : List (String × Int)
  viewersByDevice : List (String × Int)
  viewerTimeline : List TimeSeriesDataPoint
  lastUpdated : Int
deriving DecidableEq

/-- The state of `AnalyticsService`: per-room records and session tables. -/
structure AnalyticsService where
  streamAnalytics : List (String × StreamAnalytics)
  viewerSessions : List (String × List (String × ViewerSession))
deriving DecidableEq

/-- The distinct errors of the analytics operations. -/
inductive AnalyticsError where
  | alreadyStarted
  | analyticsNotFound
  | noSessionsFound
  | sessionNotFound
deriving DecidableEq

/-- `AnalyticsService.StartStreamAnalytics`: fails if already running. -/
def AnalyticsService.StartStreamAnalytics (s : AnalyticsService) (now : Int)
    (roomName streamerID : String) : Except AnalyticsError AnalyticsService :=
  match mapLookup s.streamAnalytics roomName with
  | some _ => .error .alreadyStarted
  | none =>
    let analytics : StreamAnalytics :=
      { roomName := roomName, streamerID := streamerID, startTime := now,
        endTime := none, duration := 0, totalViewers := 0, peakViewers := 0,
        currentViewers := 0, averageViewers := 0, uniqueViewers := 0,
        viewerRetention := 0, averageWatchTime := 0, totalMessages := 0,
        uniqueMessagers := 0, messagesPerMinute := 0, totalReactions := 0,
        reactionsPerMinute := 0, reactionBreakdown := [], peakBitrate := 0,
        viewersByCountry := [], viewersByRegion := [], viewersByPlatform := [],
        viewersByDevice := [], viewerTimeline := [], lastUpdated := now }
    .ok { streamAnalytics := mapInsert s.streamAnalytics roomName analytics,
          viewerSessions := mapInsert s.viewerSessions roomName [] }

/-- A dimensional counter bump guarded on the non-empty string, as in
`if country != "" { analytics.ViewersByCountry[country]++ }`. -/
def bumpDim (m : List (String × Int)) (k : String) : List (String × Int) :=
  if k = "" then m else mapInsert m k ((mapLookup m k).getD 0 + 1)

/-- The uniqueness test of `RecordViewerJoin`: the viewer is unique iff no
stored session of this identity is completed (`LeftAt` set). The session table
holds at most one (the latest) session per identity. -/
def hasCompletedSession (sessions : List (String × ViewerSession)) (viewerID : String) :
    Bool :=
  sessions.any (fun kv => kv.2.viewerID == viewerID && kv.2.leftAt.isSome)

/-- `AnalyticsService.RecordViewerJoin`: bumps current and total, adds a fresh
session (overwriting the identity's slot), counts uniqueness, updates the peak
and the dimensional counters. -/
def AnalyticsService.RecordViewerJoin (s : AnalyticsService) (now : Int)
    (roomName viewerID platform device country region : String) :
    Except AnalyticsError AnalyticsService :=
  match mapLookup s.streamAnalytics roomName with
  | none => .error .analyticsNotFound
  | some analytics =>
    let sessions := (mapLookup s.viewerSessions roomName).getD []
    let isUnique := !hasCompletedSession sessions viewerID
    let session : ViewerSession :=
      { viewerID := viewerID, roomName := roomName, joinedAt := now,
        leftAt := none, watchDuration := 0, messagesSent := 0,
        reactionsSent := 0, platform := platform, device := device,
        country := country, region := region, avgBitrate := 0,
        bufferingCount := 0, qualityLevel := "auto", connectionQuality := "" }
    let sessions2 := mapInsert sessions viewerID session
    let current := analytics.currentViewers + 1
    let analytics2 := { analytics with
                        currentViewers := current,
                        totalViewers := analytics.totalViewers + 1,
                        uniqueViewers := analytics.uniqueViewers + (if isUnique then 1 else 0),
                        peakViewers := if analytics.peakViewers < current then current
                          else analytics.peakViewers,
                        viewersByCountry := bumpDim analytics.viewersByCountry country,
                        viewersByRegion := bumpDim analytics.viewersByRegion region,
                        viewersByPlatform := bumpDim analytics.viewersByPlatform platform,
                        viewersByDevice := bumpDim analytics.viewersByDevice device }
    .ok { streamAnalytics := mapInsert s.streamAnalytics roomName analytics2,
          viewerSessions := mapInsert s.viewerSessions roomName sessions2 }

/-- `AnalyticsService.RecordViewerLeave`: closes the identity's session and
decrements the current count, clamped at zero. -/
def AnalyticsService.RecordViewerLeave (s : AnalyticsService) (now : Int)
    (roomName viewerID : String) : Except AnalyticsError AnalyticsService :=
  match mapLookup s.streamAnalytics roomName with
  | none => .error .analyticsNotFound
  | some analytics =>
    match mapLookup s.viewerSessions roomName with
    | none => .error .noSessionsFound
    | some sessions =>
      match mapLookup sessions viewerID with
      | none => .error .sessionNotFound
      | some session =>
        let session2 := { session with
                          leftAt := some now,
                          watchDuration := now - session.joinedAt }
        let current := analytics.currentViewers - 1
        let analytics2 := { analytics with
                            currentViewers := if current < 0 then 0 else current }
        .ok { streamAnalytics := mapInsert s.streamAnalytics roomName analytics2,
              viewerSessions := mapInsert s.viewerSessions roomName
                (mapInsert sessions viewerID session2) }

/-- `AnalyticsService.RecordChatMessage`. -/
def AnalyticsService.RecordChatMessage (s : AnalyticsService)
    (roomName senderID : String) : Except AnalyticsError AnalyticsService :=
  match mapLookup s.streamAnalytics roomName with
  | none => .error .analyticsNotFound
  | some analytics =>
    let analytics2 := { analytics with totalMessages := analytics.totalMessages + 1 }
    let viewerSessions :=
      match mapLookup s.viewerSessions roomName with
      | none => s.viewerSessions
      | some sessions =>
        match mapLookup sessions senderID with
        | none => s.viewerSessions
        | some session =>
          mapInsert s.viewerSessions roomName
            (mapInsert sessions senderID
              ({ session with messagesSent := session.messagesSent + 1 }))
    .ok { streamAnalytics := mapInsert s.streamAnalytics roomName analytics2,
          viewerSessions := viewerSessions }

/-- `AnalyticsService.RecordReaction`. -/
def AnalyticsService.RecordReaction (s : AnalyticsService)
    (roomName senderID reactionType : String) : Except AnalyticsError AnalyticsService :=
  match mapLookup s.streamAnalytics roomName with
  | none => .error .analyticsNotFound
  | some analytics =>
    let analytics2 := { analytics with
                        totalReactions := analytics.totalReactions + 1,
                        reactionBreakdown := mapInsert analytics.reactionBreakdown reactionType
                          ((mapLookup analytics.reactionBreakdown reactionType).getD 0 + 1) }
    let viewerSessions :=
      match mapLookup s.viewerSessions roomName with
      | none => s.viewerSessions
      | some sessions =>
        match mapLookup sessions senderID with
        | none => s.viewerSessions
        | some session =>
          mapInsert s.viewerSessions roomName
            (mapInsert sessions senderID
              ({ session with reactionsSent := session.reactionsSent + 1 }))
    .ok { streamAnalytics := mapInsert s.streamAnalytics roomName analytics2,
          viewerSessions := viewerSessions }

/-- `AnalyticsService.RecordBitrateUpdate`: tracks the peak. -/
def AnalyticsService.RecordBitrateUpdate (s : AnalyticsService)
    (roomName : String) (bitrate : Int) : Except AnalyticsError AnalyticsService :=
  match mapLookup s.streamAnalytics roomName with
  | none => .error .analyticsNotFound
  | some analytics =>
    let analytics2 := if analytics.peakBitrate < bitrate then
        { analytics with peakBitrate := bitrate }
      else analytics
    .ok { s with streamAnalytics := mapInsert s.streamAnalytics roomName analytics2 }

/-- The literal analytics scenario: on room r3, join alice, bob, alice; leave
alice; join alice again. -/
def analyticsScenario : Except AnalyticsError AnalyticsService := do
  let s0 : AnalyticsService := { streamAnalytics := [], viewerSessions := [] }
  let s1 ← s0.StartStreamAnalytics 0 "r3" "streamer"
  let s2 ← s1.RecordViewerJoin 1 "r3" "alice" "" "" "" ""
  let s3 ← s2.RecordViewerJoin 2 "r3" "bob" "" "" "" ""
  let s4 ← s3.RecordViewerJoin 3 "r3" "alice" "" "" "" ""
  let s5 ← s4.RecordViewerLeave 4 "r3" "alice"
  s5.RecordViewerJoin 5 "r3" "alice" "" "" "" ""

/-- The `(total, unique, current, peak)` viewer counters of the scenario. -/
def analyticsScenarioCounts : Except AnalyticsError (Option (Int × Int × Int × Int)) :=
  analyticsScenario.map (fun s =>
    (mapLookup s.streamAnalytics "r3").map (fun a =>
      (a.totalViewers, a.uniqueViewers, a.currentViewers, a.peakViewers)))

/-! ## Reaction engine (`ReactionService` of `pkg/streaming/reactions.go`) -/

/-- `ReactionPosition`: a unit-square point; floats are rationals. -/
structure ReactionPosition where
  x : ℚ
  y : ℚ
deriving DecidableEq

/-- `Reaction`. `ReactionType` is a string type in the source, kept as `String`. -/
structure Reaction where
  id : String
  roomName : String
  userID : String
  userName : String
  type : String
  timestamp : Int
  position : Option ReactionPosition
deriving DecidableEq

/-- `TopReactor`. -/
structure TopReactor where
  userID : String
  userName : String
  reactionCount : Nat
deriving DecidableEq

/-- `ReactionStats`. -/
structure ReactionStats where
  roomName : String
  totalReactions : Int
  reactionCounts : List (String × Int)
  topReactors : List TopReactor
  recentReactions : List Reaction
  lastUpdated : Int
deriving DecidableEq

/-- `RateLimit`: the per-sender rate-limit counter. -/
structure RateLimit where
  lastReaction : Int
  count : Int
  windowStart : Int
deriving DecidableEq

/-- `ReactionRoom`. -/
structure ReactionRoom where
  roomName : String
  reactions : List Reaction
  stats : ReactionStats
  userReactions : List (String × List Reaction)
  rateLimits : List (String × RateLimit)
  createdAt : Int
deriving DecidableEq

/-- `ReactionConfig`. -/
structure ReactionConfig where
  maxReactionsPerMinute : Int
  maxReactionsPerSecond : Int
  reactionTTL : Int
  enableRateLimit : Bool
  enableAnimation : Bool
  maxRecentReactions : Nat
  enableLeaderboard : Bool
deriving DecidableEq

/-- The defaults of `NewReactionService`. -/
def defaultReactionConfig : ReactionConfig where
  maxReactionsPerMinute := 60
  maxReactionsPerSecond := 3
  reactionTTL := 5 * nsPerMinute
  enableRateLimit := true
  enableAnimation := true
  maxRecentReactions := 100
  enableLeaderboard := true

/-- The state of `ReactionService`. -/
structure ReactionService where
  rooms : List (String × ReactionRoom)
  config : ReactionConfig
deriving DecidableEq

/-- The distinct errors of the reaction operations. -/
inductive ReactionError where
  | roomAlreadyExists
  | roomNotFound
  | rateLimitedPerSecond
  | rateLimitedPerMinute
deriving DecidableEq

/-- The empty reaction room built by `CreateReactionRoom` and by the
auto-create path of `SendReaction`. -/
def emptyReactionRoom (roomName : String) (now : Int) : ReactionRoom :=
  { roomName := roomName, reactions := [], userReactions := [], rateLimits := [],
    createdAt := now,
    stats := { roomName := roomName, totalReactions := 0, reactionCounts := [],
               topReactors := [], recentReactions := [], lastUpdated := now } }

/-- `ReactionService.checkRateLimit`: a sender with no counter passes; the
per-second gate requires `1s / maxReactionsPerSecond` since the last accepted
reaction (Go integer division of durations); the per-minute gate applies
within the current minute window. -/
def checkRateLimit (config : ReactionConfig) (room : ReactionRoom)
    (userID : String) (now : Int) : Option ReactionError :=
  match mapLookup room.rateLimits userID with
  | none => none
  | some rateLimit =>
    if now - rateLimit.lastReaction < Int.tdiv nsPerSecond config.maxReactionsPerSecond then
      some .rateLimitedPerSecond
    else if now - rateLimit.windowStart < nsPerMinute ∧
        config.maxReactionsPerMinute ≤ rateLimit.count then
      some .rateLimitedPerMinute
    else none

/-- `ReactionService.updateRateLimit`: creates the counter on first use, rolls
the minute window, then records this accepted reaction. -/
def updateRateLimit (room : ReactionRoom) (userID : String) (now : Int) :
    ReactionRoom :=
  let rateLimit := (mapLookup room.rateLimits userID).getD
    { lastReaction := 0, count := 0, windowStart := now }
  let rolled := if nsPerMinute ≤ now - rateLimit.windowStart then
      { rateLimit with windowStart := now, count := 0 }
    else rateLimit
  let final := { rolled with lastReaction := now, count := rolled.count + 1 }
  { room with rateLimits := mapInsert room.rateLimits userID final }

/-- One pass of the inner loop of the source's quadratic top-reactor sort:
carries the running maximum along the tail, swapping whenever a strictly
larger count is met; returns the maximum and the leftovers in swap order. -/
def topBubble (x : TopReactor) (rest : List TopReactor) :
    TopReactor × List TopReactor :=
  match rest with
  | [] => (x, [])
  | y :: ys =>
    let p := if x.reactionCount < y.reactionCount then (y, x) else (x, y)
    let q := topBubble p.1 ys
    (q.1, p.2 :: q.2)

/-- The outer loop of the quadratic sort, fuelled by the list length. -/
def topSelect (fuel : Nat) (l : List TopReactor) : List TopReactor :=
  match fuel, l with
  | 0, _ => []
  | _, [] => []
  | Nat.succ n, x :: xs =>
    let q := topBubble x xs
    q.1 :: topSelect n q.2

/-- `ReactionService.updateTopReactors`: per-user counts from the per-user
index (names from the first stored reaction), sorted descending by the
source's quadratic sort, keeping the top 10. -/
def updateTopReactors (config : ReactionConfig) (room : ReactionRoom) :
    ReactionRoom :=
  if config.enableLeaderboard = false then room
  else
    let reactors := room.userReactions.map (fun kv =>
      ({ userID := kv.1,
         userName := match kv.2 with
           | [] => ""
           | r :: _ => r.userName,
         reactionCount := kv.2.length } : TopReactor))
    let sorted := topSelect reactors.length reactors
    { room with stats := { room.stats with topReactors := sorted.take 10 } }

/-- `ReactionService.SendReaction`: lazily creates the room, applies the rate
limit when enabled, then appends the reaction, updates stats, leaderboard and
the sender's rate-limit counter. The reaction id embeds `now`. -/
def ReactionService.SendReaction (rs : ReactionService) (now : Int)
    (roomName userID userName reactionType : String)
    (position : Option ReactionPosition) :
    Except ReactionError Reaction × ReactionService :=
  let found :=
    match mapLookup rs.rooms roomName with
    | some room => (room, rs.rooms)
    | none =>
      let room := emptyReactionRoom roomName now
      (room, mapInsert rs.rooms roomName room)
  let room := found.1
  let rooms := found.2
  let rlCheck := if rs.config.enableRateLimit then checkRateLimit rs.config room userID now
    else none
  match rlCheck with
  | some e => (.error e, { rs with rooms := rooms })
  | none =>
    let reaction : Reaction :=
      { id := "reaction-" ++ toString now ++ "-" ++ userID,
        roomName := roomName, userID := userID, userName := userName,
        type := reactionType, timestamp := now, position := position }
    let room2 := { room with
                   reactions := room.reactions ++ [reaction],
                   userReactions := mapInsert room.userReactions userID
                     ((mapLookup room.userReactions userID).getD [] ++ [reaction]) }
    let stats2 := { room2.stats with
                    totalReactions := room2.stats.totalReactions + 1,
                    reactionCounts := mapInsert room2.stats.reactionCounts reactionType
                      ((mapLookup room2.stats.reactionCounts reactionType).getD 0 + 1),
                    recentReactions := (reaction :: room2.stats.recentReactions).take
                      rs.config.maxRecentReactions,
                    lastUpdated := now }
    let room3 := updateTopReactors rs.config { room2 with stats := stats2 }
    let room4 := updateRateLimit room3 userID now
    (.ok reaction, { rs with rooms := mapInsert rooms roomName room4 })

/-- `ReactionService.CleanupOldReactions`: drops reactions at or past the TTL
horizon from the room log and the per-user index; stats stay untouched. -/
def ReactionService.CleanupOldReactions (rs : ReactionService) (now : Int) :
    ReactionService × Nat :=
  let cutoff := now - rs.config.reactionTTL
  let cleanedPerRoom := rs.rooms.map (fun kv =>
    let room := kv.2
    let valid := room.reactions.filter (fun r => decide (cutoff < r.timestamp))
    let removed := room.reactions.length - valid.length
    let userReactions := room.userReactions.map (fun ukv =>
      (ukv.1, ukv.2.filter (fun r => decide (cutoff < r.timestamp))))
    ((kv.1, { room with reactions := valid, userReactions := userReactions }), removed))
  ({ rs with rooms := cleanedPerRoom.map Prod.fst },
   cleanedPerRoom.foldl (fun acc p => acc + p.2) 0)

/-- Helper for scenario statements: the error of a send result, if any. -/
def reactionErrOf (r : Except ReactionError Reaction) : Option ReactionError :=
  match r with
  | .ok _ => none
  | .error e => some e

/-- Run a sequence of `SendReaction` calls from one sender at the given times,
collecting each result. -/
def sendReactionTimes (rs : ReactionService) (roomName userID userName ty : String)
    (times : List Int) : List (Except ReactionError Reaction) × ReactionService :=
  times.foldl
    (fun acc t =>
      let r := acc.2.SendReaction t roomName userID userName ty none
      (acc.1 ++ [r.1], r.2))
    ([], rs)

/-! ## Concrete states used in the scenario statements below -/

/-- Helper for scenario statements: the error of a chat send result, if any. -/
def chatErrOf (r : Except ChatError ChatMessage) : Option ChatError :=
  match r with
  | .ok _ => none
  | .error e => some e

/-- A fresh chat service as built by `NewChatService`. -/
def freshChatService : ChatService := { rooms := [], badWords := defaultBadWords }

/-- Default settings sharpened to two messages per minute for the rate-limit
round trip. -/
def rateTestSettings : ChatRoomSettings :=
  { defaultChatRoomSettings with maxMessagesPerMin := 2 }

/-- A service holding one room with the sharpened rate limit. -/
def rateTestService : ChatService :=
  (freshChatService.CreateChatRoom 0 "r" (some rateTestSettings)).2

/-- Results of four sends: three in quick succession, one after the minute. -/
def rateTestResults : List (Except ChatError ChatMessage) :=
  (sendTimes rateTestService "r" "bob" [0, 1, 2, 61 * nsPerSecond]).1

/-- The service after the two sends that fill the minute window. -/
def rateTestServiceAfterTwo : ChatService :=
  (sendTimes rateTestService "r" "bob" [0, 1]).2

/-- A room literal used as a fallback default in scenario lookups. -/
def fallbackChatRoom : ChatRoom :=
  { roomName := "", messages := [], participants := [], moderators := [],
    bannedUsers := [], createdAt := 0, settings := defaultChatRoomSettings }

/-- The rate-test room right after the window-filling sends. -/
def rateTestRoomAfterTwo : ChatRoom :=
  (mapLookup rateTestServiceAfterTwo.rooms "r").getD fallbackChatRoom

/-- A service with one default-settings room (bad-word filter enabled). -/
def badWordService : ChatService := (freshChatService.CreateChatRoom 0 "r" none).2

/-- A room whose participant bob is muted (after a moderator mute). -/
def mutedRoom : ChatRoom :=
  { roomName := "r", messages := [],
    participants := [("bob",
      { identity := "bob", name := "Bob", isModerator := false, isMuted := true,
        joinedAt := 0, messageCount := 0 })],
    moderators := [("mod", true)], bannedUsers := [], createdAt := 0,
    settings := defaultChatRoomSettings }

/-- The service holding `mutedRoom`. -/
def mutedChatService : ChatService :=
  { rooms := [("r", mutedRoom)], badWords := defaultBadWords }

/-- A stream key that expires at time 5. -/
def boundaryKey : StreamKey :=
  { key := "k", streamerID := "alice", roomName := "r1", isActive := true,
    createdAt := 0, expiresAt := some 5, metadata := [], usageCount := 0,
    lastUsedAt := none, permissions := none }

/-- The manager holding `boundaryKey`. -/
def boundaryManager : StreamKeyManager :=
  { keys := [("k", boundaryKey)], streamerKeys := [("alice", ["k"])] }

/-- A non-expiring active stream key. -/
def demoKey : StreamKey :=
  { key := "k", streamerID := "alice", roomName := "r1", isActive := true,
    createdAt := 0, expiresAt := none, metadata := [], usageCount := 0,
    lastUsedAt := none, permissions := some defaultStreamPermissions }

/-- The manager holding `demoKey`. -/
def demoManager : StreamKeyManager :=
  { keys := [("k", demoKey)], streamerKeys := [("alice", ["k"])] }

/-- `demoManager` right after `revoke("k")`. -/
def demoManagerRevoked : StreamKeyManager :=
  (demoManager.RevokeStreamKey "k").toOption.getD demoManager

/-- Post-revoke operations for the absorption scenario: a use attempt, an
unrelated generate, and a sweep. -/
def demoOps : List (Int × KeyOp) :=
  [(1, .markUsed "k"), (2, .generate "k2" "bob" "r2" none none), (3, .cleanup)]

/-- A ready public 100ns-long recording. -/
def readyRecording : VODRecording :=
  { id := "rec1", roomName := "r", streamerID := "s", streamerName := "S",
    title := "t", description := "", thumbnailURL := "", videoURL := "",
    fileSize := 0, duration := 100, status := .ready, viewCount := 1,
    recordedAt := 0, publishedAt := none, expiresAt := none, isPublic := true,
    tags := [], category := "", metadata := [], averageViewDuration := 0 }

/-- A fresh playback session on `readyRecording`. -/
def freshSession : VODPlaybackSession :=
  { id := "sess1", recordingID := "rec1", userID := "u", startedAt := 0,
    lastHeartbeat := 0, currentPosition := 0, watchDuration := 0,
    completed := false, quality := "auto" }

/-- A VOD service holding `readyRecording` and `freshSession`. -/
def playbackService : VODService :=
  { recordings := [("rec1", readyRecording)], streamerRecordings := [("s", ["rec1"])],
    playbackSessions := [("sess1", freshSession)], config := defaultVODConfig }

/-- Two heartbeats: one past the 95% mark, then a rewind to position 0. -/
def rewindTrace : Except VODError VODService := do
  let v1 ← playbackService.UpdatePlaybackSession 1 "sess1" 95
  v1.UpdatePlaybackSession 2 "sess1" 0

/-- The service after only the first (latching) heartbeat. -/
def playbackServiceLatched : VODService :=
  (playbackService.UpdatePlaybackSession 1 "sess1" 95).toOption.getD playbackService

/-- The latched session itself. -/
def latchedSession : VODPlaybackSession :=
  (mapLookup playbackServiceLatched.playbackSessions "sess1").getD freshSession

/-- A recording still in `recording` status with a provisional duration. -/
def liveRecording : VODRecording :=
  { readyRecording with status := .recording, duration := 7, isPublic := false }

/-- A VOD service holding `liveRecording` and a session watching it. -/
def liveService : VODService :=
  { recordings := [("rec1", liveRecording)], streamerRecordings := [("s", ["rec1"])],
    playbackSessions := [("sess1", freshSession)], config := defaultVODConfig }

/-- `liveService` after the HTTP stop (which reports duration 0). -/
def stoppedService : VODService :=
  (handleStopRecordingVOD liveService "rec1").toOption.getD liveService

/-- The recording after the HTTP stop. -/
def stoppedRecording : VODRecording :=
  (mapLookup stoppedService.recordings "rec1").getD liveRecording

/-- `stoppedService` after a heartbeat at position 1000. -/
def stoppedServiceAfterBeat : VODService :=
  (stoppedService.UpdatePlaybackSession 3 "sess1" 1000).toOption.getD stoppedService

/-- The session after that heartbeat. -/
def sessionAfterBeat : VODPlaybackSession :=
  (mapLookup stoppedServiceAfterBeat.playbackSessions "sess1").getD freshSession

/-- An empty VOD service. -/
def emptyVODService : VODService :=
  { recordings := [], streamerRecordings := [], playbackSessions := [],
    config := defaultVODConfig }

/-- A fallback analytics record (all counters zero). -/
def fallbackAnalytics : StreamAnalytics :=
  { roomName := "", streamerID := "", startTime := 0, endTime := none,
    duration := 0, totalViewers := 0, peakViewers := 0, currentViewers := 0,
    averageViewers := 0, uniqueViewers := 0, viewerRetention := 0,
    averageWatchTime := 0, totalMessages := 0, uniqueMessagers := 0,
    messagesPerMinute := 0, totalReactions := 0, reactionsPerMinute := 0,
    reactionBreakdown := [], peakBitrate := 0, viewersByCountry := [],
    viewersByRegion := [], viewersByPlatform := [], viewersByDevice := [],
    viewerTimeline := [], lastUpdated := 0 }

/-- An empty analytics service. -/
def emptyAnalyticsService : AnalyticsService :=
  { streamAnalytics := [], viewerSessions := [] }

/-- Analytics state right after `start("r3")`. -/
def anStateStarted : AnalyticsService :=
  (emptyAnalyticsService.StartStreamAnalytics 0 "r3" "streamer").toOption.getD
    emptyAnalyticsService

/-- Analytics state after the first `viewer_join(alice)`. -/
def anStateJoined : AnalyticsService :=
  (anStateStarted.RecordViewerJoin 1 "r3" "alice" "" "" "" "").toOption.getD
    anStateStarted

/-- The analytics record before the first join. -/
def anRecStarted : StreamAnalytics :=
  (mapLookup anStateStarted.streamAnalytics "r3").getD fallbackAnalytics

/-- The analytics record after the first join. -/
def anRecJoined : StreamAnalytics :=
  (mapLookup anStateJoined.streamAnalytics "r3").getD fallbackAnalytics

/-- A fresh reaction service with the default configuration. -/
def freshReactionService : ReactionService :=
  { rooms := [], config := defaultReactionConfig }

/-- Results of four reactions from one sender within 100 ms. -/
def reactionBurstResults : List (Except ReactionError Reaction) :=
  (sendReactionTimes freshReactionService "r" "u1" "U" "heart"
    [0, 33000000, 66000000, 99000000]).1

/-- A reaction room whose sender u1 has an existing rate-limit counter with
last accepted reaction at time 0. -/
def gapRoom : ReactionRoom :=
  { emptyReactionRoom "r" 0 with
    rateLimits := [("u1", { lastReaction := 0, count := 1, windowStart := 0 })] }

/-- The service holding `gapRoom`. -/
def gapService : ReactionService :=
  { rooms := [("r", gapRoom)], config := defaultReactionConfig }

/-! ## Association-list map lemmas -/

theorem mapLookup_mapInsert_self {α : Type} (m : List (String × α)) (k : String) (v : α) :
    mapLookup (mapInsert m k v) k = some v := by
  induction m with
  | nil => simp [mapInsert, mapLookup]
  | cons kv rest ih =>
    by_cases h : kv.1 = k
    · simp [mapInsert, h, mapLookup]
    · simp [mapInsert, h, mapLookup, ih]

theorem mapLookup_mapInsert_ne {α : Type} (m : List (String × α)) (k1 k : String) (v : α)
    (h : k1 ≠ k) : mapLookup (mapInsert m k1 v) k = mapLookup m k := by
  induction m with
  | nil => simp [mapInsert, mapLookup, h]
  | cons kv rest ih =>
    by_cases h2 : kv.1 = k1
    · simp [mapInsert, h2, mapLookup, h]
    · simp only [mapInsert, h2, if_false, mapLookup]
      by_cases h3 : kv.1 = k <;> simp [h3, ih]

theorem mapLookup_mem {α : Type} {k : String} {v : α} :
    ∀ {m : List (String × α)}, mapLookup m k = some v → (k, v) ∈ m := by
  intro m
  induction m with
  | nil => intro h; simp [mapLookup] at h
  | cons kv rest ih =>
    intro h
    by_cases h2 : kv.1 = k
    · simp only [mapLookup, h2, if_pos] at h
      have hv : kv.2 = v := Option.some.inj h
      have hkv : (k, v) = kv := by
        obtain ⟨a, b⟩ := kv
        simp only at h2 hv
        rw [h2, hv]
      rw [hkv]
      exact List.mem_cons_self _ _
    · simp only [mapLookup, h2, if_neg, if_false] at h
      exact List.mem_cons_of_mem _ (ih h)

theorem mem_mapInsert {α : Type} {k : String} {v : α} {kv : String × α} :
    ∀ {m : List (String × α)}, kv ∈ mapInsert m k v → kv ∈ m ∨ kv = (k, v) := by
  intro m
  induction m with
  | nil =>
    intro h
    simp [mapInsert] at h
    right; exact h
  | cons kv1 rest ih =>
    intro h
    by_cases h2 : kv1.1 = k
    · rw [show mapInsert (kv1 :: rest) k v = (k, v) :: rest by
        simp [mapInsert, h2]] at h
      rcases List.mem_cons.mp h with h3 | h3
      · right; exact h3
      · left; exact List.mem_cons_of_mem _ h3
    · rw [show mapInsert (kv1 :: rest) k v = kv1 :: mapInsert rest k v by
        simp [mapInsert, h2]] at h
      rcases List.mem_cons.mp h with h3 | h3
      · left; simp [h3]
      · rcases ih h3 with h4 | h4
        · left; exact List.mem_cons_of_mem _ h4
        · right; exact h4

theorem mem_mapInsert_self_eq {α : Type} {k : String} {v : α} {kv : String × α} :
    ∀ {m : List (String × α)}, (m.map Prod.fst).Nodup →
    kv ∈ mapInsert m k v → kv.1 = k → kv = (k, v) := by
  intro m
  induction m with
  | nil =>
    intro _ hm _
    simp [mapInsert] at hm
    exact hm
  | cons kv1 rest ih =>
    intro hnd hm hk
    simp only [List.map_cons, List.nodup_cons] at hnd
    by_cases h2 : kv1.1 = k
    · rw [show mapInsert (kv1 :: rest) k v = (k, v) :: rest by
        simp [mapInsert, h2]] at hm
      rcases List.mem_cons.mp hm with h3 | h3
      · exact h3
      · exfalso
        apply hnd.1
        rw [h2, ← hk]
        exact List.mem_map_of_mem Prod.fst h3
    · rw [show mapInsert (kv1 :: rest) k v = kv1 :: mapInsert rest k v by
        simp [mapInsert, h2]] at hm
      rcases List.mem_cons.mp hm with h3 | h3
      · exact absurd (h3 ▸ hk) h2
      · exact ih hnd.2 h3 hk

theorem mapLookup_mapErase_self {α : Type} (m : List (String × α)) (k : String) :
    mapLookup (mapErase m k) k = none := by
  induction m with
  | nil => simp [mapErase, mapLookup]
  | cons kv rest ih =>
    by_cases h : kv.1 = k
    · simpa [mapErase, List.filter_cons, h] using ih
    · simpa [mapErase, List.filter_cons, h, mapLookup] using ih

theorem removeFirst_append_not_mem (l : List String) (k : String) (h : k ∉ l) :
    removeFirst (l ++ [k]) k = l := by
  induction l with
  | nil => simp [removeFirst]
  | cons x xs ih =>
    simp only [List.mem_cons, not_or] at h
    have hx : ¬(x = k) := fun hx => h.1 hx.symm
    simp only [List.cons_append, removeFirst, if_neg hx]
    exact congrArg (List.cons x) (ih h.2)

/-! ## Claim C5: stream-key validation -/

/-- C5, counterexample: at `now = 5` validation of a key with `expiresAt = 5`
succeeds, yet the claimed invariant `now < expiresAt` fails — the source's
`time.Now().After(expiresAt)` admits the boundary instant. -/
theorem c5_boundary_counterexample :
    boundaryManager.ValidateStreamKey 5 "k" = .ok boundaryKey ∧
    boundaryKey.expiresAt = some 5 ∧ ¬((5 : Int) < 5) :=
  ⟨rfl, rfl, by omega⟩

/-- C5, amended: every key returned by validate is active and, when it has an
expiry, satisfies `now ≤ expiresAt` (not the claimed strict `now < expiresAt`);
an absent key fails not-found, an inactive key fails inactive, and an active
key past its expiry fails expired. -/
theorem c5_validate_characterisation :
    (∀ (m : StreamKeyManager) (now : Int) (k : String) (sk : StreamKey),
      m.ValidateStreamKey now k = .ok sk →
      sk.isActive = true ∧
        (sk.expiresAt = none ∨ ∃ e, sk.expiresAt = some e ∧ now ≤ e)) ∧
    (∀ (m : StreamKeyManager) (now : Int) (k : String),
      mapLookup m.keys k = none → m.ValidateStreamKey now k = .error .notFound) ∧
    (∀ (m : StreamKeyManager) (now : Int) (k : String) (sk : StreamKey),
      mapLookup m.keys k = some sk → sk.isActive = false →
      m.ValidateStreamKey now k = .error .inactive) ∧
    (∀ (m : StreamKeyManager) (now : Int) (k : String) (sk : StreamKey) (e : Int),
      mapLookup m.keys k = some sk → sk.isActive = true → sk.expiresAt = some e →
      e < now → m.ValidateStreamKey now k = .error .expired) := by
  refine ⟨?_, ?_, ?_, ?_⟩
  · intro m now k sk h
    cases hl : mapLookup m.keys k with
    | none =>
      simp only [StreamKeyManager.ValidateStreamKey, hl] at h
      cases h
    | some sk0 =>
      simp only [StreamKeyManager.ValidateStreamKey, hl] at h
      by_cases ha : sk0.isActive = false
      · rw [if_pos ha] at h; cases h
      · rw [if_neg ha] at h
        have hact : sk0.isActive = true := by
          cases hb : sk0.isActive
          · exact absurd hb ha
          · rfl
        cases he : sk0.expiresAt with
        | none =>
          simp only [he] at h
          cases h
          exact ⟨hact, Or.inl he⟩
        | some e =>
          simp only [he] at h
          by_cases hg : now > e
          · rw [if_pos hg] at h; cases h
          · rw [if_neg hg] at h
            cases h
            exact ⟨hact, Or.inr ⟨e, he, by omega⟩⟩
  · intro m now k h
    simp only [StreamKeyManager.ValidateStreamKey, h]
  · intro m now k sk hl ha
    simp only [StreamKeyManager.ValidateStreamKey, hl]
    rw [if_pos ha]
  · intro m now k sk e hl ha he hlt
    simp only [StreamKeyManager.ValidateStreamKey, hl, he]
    rw [if_neg (by rw [ha]; exact fun hc => Bool.noConfusion hc),
        if_pos (by omega)]

/-- C5, witness: the characterisation applied to `boundaryManager` at time 3. -/
theorem c5_validate_characterisation_witness :
    boundaryKey.isActive = true ∧
      (boundaryKey.expiresAt = none ∨
        ∃ e, boundaryKey.expiresAt = some e ∧ (3 : Int) ≤ e) :=
  c5_validate_characterisation.1 boundaryManager 3 "k" boundaryKey rfl

/-! ## Claim C7: revoke is absorbing -/

theorem validate_fails_of_revokedAll (m : StreamKeyManager) (k : String)
    (h : ∀ kv ∈ m.keys, kv.1 = k → kv.2.isActive = false) :
    ∀ (now : Int) (sk : StreamKey), m.ValidateStreamKey now k ≠ .ok sk := by
  intro now sk hok
  cases hl : mapLookup m.keys k with
  | none =>
    simp only [StreamKeyManager.ValidateStreamKey, hl] at hok
    cases hok
  | some sk0 =>
    have hin : sk0.isActive = false := h (k, sk0) (mapLookup_mem hl) rfl
    simp only [StreamKeyManager.ValidateStreamKey, hl] at hok
    rw [if_pos hin] at hok
    cases hok

theorem revokedAll_applyOp (now : Int) (op : KeyOp) (k : String)
    (m : StreamKeyManager) (hop : opGeneratesKey k (now, op) = false)
    (h : ∀ kv ∈ m.keys, kv.1 = k → kv.2.isActive = false) :
    ∀ kv ∈ (m.applyOp now op).keys, kv.1 = k → kv.2.isActive = false := by
  cases op with
  | generate key sid room perms expIn =>
    intro kv hm hk
    have hkey : ¬(key = k) := by simpa [opGeneratesKey] using hop
    simp only [StreamKeyManager.applyOp, StreamKeyManager.GenerateStreamKey] at hm
    rcases mem_mapInsert hm with h2 | h2
    · exact h kv h2 hk
    · exact absurd (by rw [h2] at hk; exact hk) hkey
  | markUsed key =>
    intro kv hm hk
    cases hl : mapLookup m.keys key with
    | none =>
      simp only [StreamKeyManager.applyOp, StreamKeyManager.MarkKeyAsUsed, hl] at hm
      exact h kv hm hk
    | some sk0 =>
      simp only [StreamKeyManager.applyOp, StreamKeyManager.MarkKeyAsUsed, hl] at hm
      rcases mem_mapInsert hm with h2 | h2
      · exact h kv h2 hk
      · have hkk : key = k := by rw [h2] at hk; exact hk
        have hsk0 : sk0.isActive = false :=
          h (key, sk0) (mapLookup_mem hl) hkk
        rw [h2]
        exact hsk0
  | revoke key =>
    intro kv hm hk
    cases hl : mapLookup m.keys key with
    | none =>
      simp only [StreamKeyManager.applyOp, StreamKeyManager.RevokeStreamKey, hl] at hm
      exact h kv hm hk
    | some sk0 =>
      simp only [StreamKeyManager.applyOp, StreamKeyManager.RevokeStreamKey, hl] at hm
      rcases mem_mapInsert hm with h2 | h2
      · exact h kv h2 hk
      · rw [h2]
  | deleteKey key =>
    intro kv hm hk
    cases hl : mapLookup m.keys key with
    | none =>
      simp only [StreamKeyManager.applyOp, StreamKeyManager.DeleteStreamKey, hl] at hm
      exact h kv hm hk
    | some sk0 =>
      simp only [StreamKeyManager.applyOp, StreamKeyManager.DeleteStreamKey, hl,
        mapErase] at hm
      exact h kv (List.mem_of_mem_filter hm) hk
  | updateMetadata key md =>
    intro kv hm hk
    cases hl : mapLookup m.keys key with
    | none =>
      simp only [StreamKeyManager.applyOp, StreamKeyManager.UpdateStreamKeyMetadata,
        hl] at hm
      exact h kv hm hk
    | some sk0 =>
      simp only [StreamKeyManager.applyOp, StreamKeyManager.UpdateStreamKeyMetadata,
        hl] at hm
      rcases mem_mapInsert hm with h2 | h2
      · exact h kv h2 hk
      · have hkk : key = k := by rw [h2] at hk; exact hk
        have hsk0 : sk0.isActive = false :=
          h (key, sk0) (mapLookup_mem hl) hkk
        rw [h2]
        exact hsk0
  | cleanup =>
    intro kv hm hk
    simp only [StreamKeyManager.applyOp, StreamKeyManager.CleanupExpiredKeys] at hm
    exact h kv (List.mem_of_mem_filter hm) hk

theorem revokedAll_applyOps (ops : List (Int × KeyOp)) (k : String) :
    ∀ (m : StreamKeyManager), (∀ p ∈ ops, opGeneratesKey k p = false) →
    (∀ kv ∈ m.keys, kv.1 = k → kv.2.isActive = false) →
    ∀ kv ∈ (m.applyOps ops).keys, kv.1 = k → kv.2.isActive = false := by
  induction ops with
  | nil =>
    intro m _ h
    simpa [StreamKeyManager.applyOps] using h
  | cons p rest ih =>
    intro m hops h
    have hstep : ∀ kv ∈ (m.applyOp p.1 p.2).keys, kv.1 = k → kv.2.isActive = false :=
      revokedAll_applyOp p.1 p.2 k m (hops p (List.mem_cons_self _ _)) h
    have htail : ∀ q ∈ rest, opGeneratesKey k q = false :=
      fun q hq => hops q (List.mem_cons_of_mem _ hq)
    have : (m.applyOps (p :: rest)) = ((m.applyOp p.1 p.2).applyOps rest) := rfl
    rw [this]
    exact ih (m.applyOp p.1 p.2) htail hstep

/-- C7: revoke is absorbing. After a successful `revoke(k)` on a manager with
well-formed (duplicate-free) keys, no sequence of later operations that never
regenerates the very same 256-bit key value makes `validate(k)` succeed again:
the entry stays with `isActive = false` until delete or sweep, and in every
intermediate state validation fails. -/
theorem c7_revoke_absorbing (m m1 : StreamKeyManager) (k : String)
    (hnd : (m.keys.map Prod.fst).Nodup)
    (hrev : m.RevokeStreamKey k = .ok m1)
    (ops : List (Int × KeyOp))
    (hops : ∀ p ∈ ops, opGeneratesKey k p = false) :
    ∀ (now : Int) (sk : StreamKey), (m1.applyOps ops).ValidateStreamKey now k ≠ .ok sk := by
  have hbase : ∀ kv ∈ m1.keys, kv.1 = k → kv.2.isActive = false := by
    cases hl : mapLookup m.keys k with
    | none =>
      simp only [StreamKeyManager.RevokeStreamKey, hl] at hrev
      cases hrev
    | some sk0 =>
      simp only [StreamKeyManager.RevokeStreamKey, hl] at hrev
      cases hrev
      intro kv hm hk
      have hkv := mem_mapInsert_self_eq hnd hm hk
      rw [hkv]
  exact validate_fails_of_revokedAll _ k (revokedAll_applyOps ops k m1 hops hbase)

/-- C7, witness: the concrete revoked manager stays invalid through a use
attempt, an unrelated key generation and a sweep. -/
theorem c7_revoke_absorbing_witness :
    (StreamKeyManager.applyOps demoManagerRevoked demoOps).ValidateStreamKey 9 "k"
      ≠ .ok demoKey :=
  c7_revoke_absorbing demoManager demoManagerRevoked "k" (by decide) rfl demoOps
    (by decide) 9 demoKey

/-! ## Claim C9: muted senders are rejected before any other send check -/

/-- C9: a send from a muted participant fails with the mute error and leaves
the room (its message log included) unchanged, whatever the content, length or
history — the mute gate runs before the length, rate-limit and slow-mode
checks. -/
theorem c9_mute_gates_send (cs : ChatService) (now : Int)
    (roomName senderID content : String) (messageType : ChatMessageType)
    (mentionedUsers : List String) (replyTo : Option String)
    (room : ChatRoom) (p : ChatParticipant)
    (hroom : mapLookup cs.rooms roomName = some room)
    (hp : mapLookup room.participants senderID = some p)
    (hmuted : p.isMuted = true) :
    (cs.SendMessage now roomName senderID content messageType mentionedUsers replyTo).1
      = .error .participantMuted ∧
    mapLookup (cs.SendMessage now roomName senderID content messageType
      mentionedUsers replyTo).2.rooms roomName = some room := by
  simp only [ChatService.SendMessage, sendMessageRoom, hroom, hp, hmuted]
  exact ⟨rfl, mapLookup_mapInsert_self _ _ _⟩

/-- C9, witness: bob, muted in the concrete room, cannot send. -/
theorem c9_mute_gates_send_witness :
    (mutedChatService.SendMessage 1 "r" "bob" "hello" .text [] none).1
      = .error .participantMuted ∧
    mapLookup (mutedChatService.SendMessage 1 "r" "bob" "hello" .text
      [] none).2.rooms "r" = some mutedRoom :=
  c9_mute_gates_send mutedChatService 1 "r" "bob" "hello" .text [] none mutedRoom
    { identity := "bob", name := "Bob", isModerator := false, isMuted := true,
      joinedAt := 0, messageCount := 0 }
    rfl rfl rfl

/-! ## Claim C6: the chat per-minute rate limit -/

theorem sendTail_ne_rateLimited (b : Bool) (e1 : ChatError)
    (he : e1 ≠ ChatError.rateLimited) (msg : ChatMessage) (r1 r2 : ChatRoom) :
    (if b = true then ((Except.error e1 : Except ChatError ChatMessage), r1)
      else (Except.ok msg, r2)).1 ≠ Except.error ChatError.rateLimited := by
  cases b <;> simp [he]

theorem sendMessageRoom_rateLimited (badWords : List String) (room : ChatRoom)
    (now : Int) (senderID content : String) (messageType : ChatMessageType)
    (mentionedUsers : List String) (replyTo : Option String)
    (hnm : ∀ p, mapLookup room.participants senderID = some p → p.isMuted = false)
    (hlen : content.utf8ByteSize ≤ room.settings.maxMessageLength) :
    (sendMessageRoom badWords room now senderID content messageType mentionedUsers
        replyTo).1 = .error .rateLimited ↔
      room.settings.maxMessagesPerMin ≤
        countRecentMessages room senderID nsPerMinute now := by
  have hlen2 : ¬(room.settings.maxMessageLength < content.utf8ByteSize) := by omega
  simp only [sendMessageRoom, countRecentMessages]
  cases hp : mapLookup room.participants senderID with
  | some p =>
    have hpm : ¬(p.isMuted = true) := by simp [hnm p hp]
    simp only [hp]
    rw [if_neg hpm, if_neg hlen2]
    by_cases hc : room.settings.maxMessagesPerMin ≤
        countRecentAux room.messages.reverse senderID (now - nsPerMinute)
    · rw [if_pos hc]
      simpa using hc
    · rw [if_neg hc]
      exact iff_of_false
        (sendTail_ne_rateLimited _ _ (fun h => ChatError.noConfusion h) _ _ _) hc
  | none =>
    simp only [hp]
    rw [if_neg (by simp : ¬((false : Bool) = true)), if_neg hlen2]
    by_cases hc : room.settings.maxMessagesPerMin ≤
        countRecentAux room.messages.reverse senderID (now - nsPerMinute)
    · rw [if_pos hc]
      simpa using hc
    · rw [if_neg hc]
      exact iff_of_false
        (sendTail_ne_rateLimited _ _ (fun h => ChatError.noConfusion h) _ _ _) hc

/-- C6: with the mute and length gates passed, a send fails `rate_limited`
exactly when the sender's message count in the trailing minute has reached
`maxMessagesPerMin`; and the literal round trip (limit 2): two quick sends
succeed, the third fails `rate_limited`, and a send after the minute has
elapsed succeeds again. -/
theorem c6_rate_limit_exact :
    (∀ (cs : ChatService) (now : Int) (roomName senderID content : String)
       (messageType : ChatMessageType) (mentionedUsers : List String)
       (replyTo : Option String) (room : ChatRoom),
      mapLookup cs.rooms roomName = some room →
      (∀ p, mapLookup room.participants senderID = some p → p.isMuted = false) →
      content.utf8ByteSize ≤ room.settings.maxMessageLength →
      ((cs.SendMessage now roomName senderID content messageType mentionedUsers
          replyTo).1 = .error .rateLimited ↔
        room.settings.maxMessagesPerMin ≤
          countRecentMessages room senderID nsPerMinute now)) ∧
    rateTestResults.map chatErrOf = [none, none, some .rateLimited, none] := by
  constructor
  · intro cs now roomName senderID content mt mu rt room hroom hnm hlen
    have hmain := sendMessageRoom_rateLimited cs.badWords room now senderID content
      mt mu rt hnm hlen
    simpa only [ChatService.SendMessage, hroom] using hmain
  · rfl

/-- C6, witness: the third quick send against the filled window fails with
exactly the rate-limit error. -/
theorem c6_rate_limit_exact_witness :
    (rateTestServiceAfterTwo.SendMessage 2 "r" "bob" "hi" .text [] none).1
      = .error .rateLimited :=
  (c6_rate_limit_exact.1 rateTestServiceAfterTwo 2 "r" "bob" "hi" .text [] none
    rateTestRoomAfterTwo rfl
    (fun p hp => by
      injection hp with h
      exact h ▸ rfl) (by decide)).mpr (by decide)

/-! ## Claim C3: the bad-word filter -/

/-- C3: the masking never happens. `filterBadWords` is the identity on every
input (its `replaceWord` worker is a stub that returns the content unchanged,
against its own comment promising asterisk masking), and concretely a send of
the configured bad word "spam" into a filter-enabled room succeeds and stores
the content verbatim. -/
theorem c3_filter_is_identity :
    (∀ (badWords : List String) (content : String),
      filterBadWords badWords content = content) ∧
    (badWordService.SendMessage 1 "r" "alice" "spam" .text [] none).1.map
      (fun m => m.content) = .ok "spam" ∧
    "spam" ∈ badWordService.badWords := by
  refine ⟨?_, rfl, ?_⟩
  · intro badWords content
    induction badWords with
    | nil => rfl
    | cons w ws ih =>
      simp only [filterBadWords, List.foldl_cons, replaceWord] at ih ⊢
      exact ih
  · show "spam" ∈ defaultBadWords
    simp [defaultBadWords]

/-! ## Claim C4: playback completion latch -/

/-- C4, counterexample: after a heartbeat past 95% and a later rewind to
position 0, the session is still `completed = true` while its stored position
is far below 95% of the duration — the claimed state invariant
`completed → position ≥ 0.95·duration` fails on the code. -/
theorem c4_rewind_counterexample :
    rewindTrace.map (fun v => (mapLookup v.playbackSessions "sess1").map
      (fun s => (s.completed, s.currentPosition))) = .ok (some (true, 0)) ∧
    ¬(19 * (100 : Int) ≤ 20 * 0) :=
  ⟨rfl, by omega⟩

/-- C4, amended: `completed` is monotone across heartbeat updates (once true it
never reverts), and it is newly set only by an update whose reported position
reaches 95% of a positive recorded duration; the invariant relates `completed`
to the position reported at the latching heartbeat, not to the (rewindable)
current position of later states. -/
theorem c4_completed_latch :
    (∀ (vs : VODService) (now : Int) (sessionID : String) (position : Int)
       (vs2 : VODService),
      vs.UpdatePlaybackSession now sessionID position = .ok vs2 →
      ∀ (sid0 : String) (s0 : VODPlaybackSession),
        mapLookup vs.playbackSessions sid0 = some s0 → s0.completed = true →
        ∀ s2, mapLookup vs2.playbackSessions sid0 = some s2 → s2.completed = true) ∧
    (∀ (vs : VODService) (now : Int) (sessionID : String) (position : Int)
       (vs2 : VODService) (session s2 : VODPlaybackSession),
      mapLookup vs.playbackSessions sessionID = some session →
      session.completed = false →
      vs.UpdatePlaybackSession now sessionID position = .ok vs2 →
      mapLookup vs2.playbackSessions sessionID = some s2 →
      s2.completed = true →
      ∃ rec, mapLookup vs.recordings session.recordingID = some rec ∧
        0 < rec.duration ∧ 19 * rec.duration ≤ 20 * position) := by
  constructor
  · intro vs now sessionID position vs2 hupd sid0 s0 h0 hc0 s2 h2
    cases hl : mapLookup vs.playbackSessions sessionID with
    | none =>
      simp only [VODService.UpdatePlaybackSession, hl] at hupd
      cases hupd
    | some session =>
      simp only [VODService.UpdatePlaybackSession, hl] at hupd
      cases hupd
      by_cases hs : sid0 = sessionID
      · subst hs
        rw [hl] at h0
        have hs0 : session = s0 := Option.some.inj h0
        subst hs0
        rw [mapLookup_mapInsert_self] at h2
        have hs2 := Option.some.inj h2
        rw [← hs2]
        cases hrec : mapLookup vs.recordings session.recordingID with
        | none =>
          simp only [hrec]
          exact hc0
        | some recording =>
          simp only [hrec]
          by_cases hcond : 0 < recording.duration ∧
              19 * recording.duration ≤ 20 * position
          · rw [if_pos hcond]
          · rw [if_neg hcond]
            exact hc0
      · rw [mapLookup_mapInsert_ne _ _ _ _ (fun h => hs h.symm)] at h2
        rw [h0] at h2
        have hs2 := Option.some.inj h2
        rw [← hs2]
        exact hc0
  · intro vs now sessionID position vs2 session s2 hl hc hupd h2 hc2
    simp only [VODService.UpdatePlaybackSession, hl] at hupd
    cases hupd
    rw [mapLookup_mapInsert_self] at h2
    have hs2 := Option.some.inj h2
    rw [← hs2] at hc2
    cases hrec : mapLookup vs.recordings session.recordingID with
    | none =>
      simp only [hrec] at hc2
      have hx : session.completed = true := hc2
      rw [hc] at hx
      exact Bool.noConfusion hx
    | some recording =>
      simp only [hrec] at hc2
      by_cases hcond : 0 < recording.duration ∧
          19 * recording.duration ≤ 20 * position
      · exact ⟨recording, hrec ▸ rfl, hcond⟩
      · rw [if_neg hcond] at hc2
        have hx : session.completed = true := hc2
        rw [hc] at hx
        exact Bool.noConfusion hx

/-- C4, witness: the latching heartbeat at position 95 on the 100ns recording
certifies the 95% condition. -/
theorem c4_completed_latch_witness :
    ∃ rec, mapLookup playbackService.recordings "rec1" = some rec ∧
      0 < rec.duration ∧ 19 * rec.duration ≤ 20 * 95 :=
  c4_completed_latch.2 playbackService 1 "sess1" 95 playbackServiceLatched
    freshSession latchedSession rfl rfl rfl rfl rfl

/-! ## Claim C8: recording start rolls back on egress failure -/

/-- C8: when the encoder's start RPC fails, the freshly reserved VOD record is
deleted again — the handler returns an error, the catalog has no entry under
the reserved id, and the streamer index does not mention it (given that the
timestamped id is fresh for the streamer, as the nanosecond ids are). -/
theorem c8_egress_failure_rollback (vs : VODService) (now : Int)
    (roomName streamerID streamerName title err : String)
    (hfresh : ∀ l, mapLookup vs.streamerRecordings streamerID = some l →
      ("rec-" ++ toString now ++ "-" ++ streamerID) ∉ l) :
    (handleStartRecording vs now roomName streamerID streamerName title
        (.error err)).1 = .error ("Failed to start egress: " ++ err) ∧
    mapLookup (handleStartRecording vs now roomName streamerID streamerName title
        (.error err)).2.recordings
      ("rec-" ++ toString now ++ "-" ++ streamerID) = none ∧
    ∀ l, mapLookup (handleStartRecording vs now roomName streamerID streamerName
        title (.error err)).2.streamerRecordings streamerID = some l →
      ("rec-" ++ toString now ++ "-" ++ streamerID) ∉ l := by
  set recID := "rec-" ++ toString now ++ "-" ++ streamerID with hrecID
  have hnotmem : recID ∉ (mapLookup vs.streamerRecordings streamerID).getD [] := by
    cases hsk : mapLookup vs.streamerRecordings streamerID with
    | none => simp
    | some l1 => simpa using hfresh l1 hsk
  have hdel :
      (handleStartRecording vs now roomName streamerID streamerName title
        (.error err)).2 =
      { recordings := mapErase (mapInsert vs.recordings recID
          (((vs.StartRecording now roomName streamerID streamerName title)).1)) recID,
        streamerRecordings := mapInsert
          (mapInsert vs.streamerRecordings streamerID
            ((mapLookup vs.streamerRecordings streamerID).getD [] ++ [recID]))
          streamerID
          ((mapLookup vs.streamerRecordings streamerID).getD []),
        playbackSessions := vs.playbackSessions,
        config := vs.config } := by
    simp only [handleStartRecording, VODService.StartRecording,
      VODService.DeleteRecording, mapLookup_mapInsert_self]
    rw [if_pos (List.mem_append_right _ (List.mem_singleton_self _))]
    rw [removeFirst_append_not_mem _ _ hnotmem]
  refine ⟨?_, ?_, ?_⟩
  · simp only [handleStartRecording, VODService.StartRecording,
      VODService.DeleteRecording, mapLookup_mapInsert_self]
  · rw [hdel]
    exact mapLookup_mapErase_self _ _
  · rw [hdel]
    intro l hl
    rw [mapLookup_mapInsert_self] at hl
    have := Option.some.inj hl
    rw [← this]
    exact hnotmem

/-- C8, witness: the rollback on the empty catalog at time 7. -/
theorem c8_egress_failure_rollback_witness :
    (handleStartRecording emptyVODService 7 "r" "alice" "A" "t"
        (.error "boom")).1 = .error ("Failed to start egress: " ++ "boom") ∧
    mapLookup (handleStartRecording emptyVODService 7 "r" "alice" "A" "t"
        (.error "boom")).2.recordings ("rec-" ++ toString (7 : Int) ++ "-" ++ "alice")
      = none ∧
    ∀ l, mapLookup (handleStartRecording emptyVODService 7 "r" "alice" "A" "t"
        (.error "boom")).2.streamerRecordings "alice" = some l →
      ("rec-" ++ toString (7 : Int) ++ "-" ++ "alice") ∉ l :=
  c8_egress_failure_rollback emptyVODService 7 "r" "alice" "A" "t" "boom"
    (fun _ hl => nomatch hl)

/-! ## Claim C10: zero-duration recordings never complete playback -/

/-- C10: the HTTP stop path always reports duration 0, so after it the record
carries duration 0; and a heartbeat against a recording of duration 0 never
changes the session's `completed` flag — it can never become true. -/
theorem c10_zero_duration_never_completes :
    (∀ (vs : VODService) (recordingID : String) (vs2 : VODService),
      handleStopRecordingVOD vs recordingID = .ok vs2 →
      ∀ rec, mapLookup vs2.recordings recordingID = some rec → rec.duration = 0) ∧
    (∀ (vs : VODService) (now : Int) (sessionID : String) (position : Int)
       (vs2 : VODService) (session : VODPlaybackSession)
       (rec : VODRecording),
      mapLookup vs.playbackSessions sessionID = some session →
      mapLookup vs.recordings session.recordingID = some rec →
      rec.duration = 0 →
      vs.UpdatePlaybackSession now sessionID position = .ok vs2 →
      ∀ s2, mapLookup vs2.playbackSessions sessionID = some s2 →
        s2.completed = session.completed) := by
  constructor
  · intro vs recordingID vs2 hstop rec hrec
    cases hl : mapLookup vs.recordings recordingID with
    | none =>
      simp only [handleStopRecordingVOD, VODService.StopRecording, hl] at hstop
      cases hstop
    | some rec0 =>
      simp only [handleStopRecordingVOD, VODService.StopRecording, hl] at hstop
      by_cases hs : rec0.status ≠ VODStatus.recording
      · rw [if_pos hs] at hstop
        cases hstop
      · rw [if_neg hs] at hstop
        cases hstop
        rw [mapLookup_mapInsert_self] at hrec
        have := Option.some.inj hrec
        rw [← this]
  · intro vs now sessionID position vs2 session rec hl hrec hd hupd s2 h2
    simp only [VODService.UpdatePlaybackSession, hl] at hupd
    cases hupd
    rw [mapLookup_mapInsert_self] at h2
    have hs2 := Option.some.inj h2
    rw [← hs2]
    have hrec2 : mapLookup vs.recordings session.recordingID = some rec := hrec
    simp only [hrec2]
    rw [if_neg (by rw [hd]; intro hcond; exact absurd hcond.1 (by omega))]

/-- C10, witness: stopping the live recording through the HTTP path zeroes its
duration, and a later heartbeat at position 1000 leaves the session
uncompleted. -/
theorem c10_zero_duration_never_completes_witness :
    stoppedRecording.duration = 0 ∧
    sessionAfterBeat.completed = freshSession.completed :=
  ⟨c10_zero_duration_never_completes.1 liveService "rec1" stoppedService rfl
      stoppedRecording rfl,
   c10_zero_duration_never_completes.2 stoppedService 3 "sess1" 1000
      stoppedServiceAfterBeat freshSession stoppedRecording rfl rfl rfl rfl
      sessionAfterBeat rfl⟩

/-! ## Claim C1: analytics viewer-join accounting -/

/-- C1, counterexample: the literal scenario — join alice, bob, alice; leave
alice; join alice — ends with `(total, unique, current, peak) = (4, 3, 3, 3)`,
not the claimed `(4, 2, 2, 2)`: the third join of alice finds no completed
session (her open one was merely overwritten) and counts as unique, and her
re-join while still counted present pushes current and peak to 3. -/
theorem c1_scenario_counterexample :
    analyticsScenarioCounts = .ok (some (4, 3, 3, 3)) ∧ ((3 : Int) ≠ 2) :=
  ⟨rfl, by omega⟩

/-- C1, amended: `viewer_join` increments current and total, updates
`peak = max(peak, current)`, and counts the viewer as unique iff the session
table holds no completed session under that identity (the table keeps only the
latest session per identity, so an open session never blocks uniqueness); the
literal scenario therefore ends with `total=4, unique=3, current=3, peak=3`. -/
theorem c1_join_semantics :
    (∀ (s : AnalyticsService) (now : Int)
       (roomName viewerID platform device country region : String)
       (s2 : AnalyticsService) (a a2 : StreamAnalytics),
      mapLookup s.streamAnalytics roomName = some a →
      s.RecordViewerJoin now roomName viewerID platform device country region
        = .ok s2 →
      mapLookup s2.streamAnalytics roomName = some a2 →
      a2.currentViewers = a.currentViewers + 1 ∧
      a2.totalViewers = a.totalViewers + 1 ∧
      a2.peakViewers = max a.peakViewers (a.currentViewers + 1) ∧
      a2.uniqueViewers =
        (if hasCompletedSession ((mapLookup s.viewerSessions roomName).getD [])
            viewerID
         then a.uniqueViewers else a.uniqueViewers + 1)) ∧
    analyticsScenarioCounts = .ok (some (4, 3, 3, 3)) := by
  constructor
  · intro s now roomName viewerID platform device country region s2 a a2
      ha hjoin ha2
    simp only [AnalyticsService.RecordViewerJoin, ha] at hjoin
    cases hjoin
    simp only [mapLookup_mapInsert_self] at ha2
    have h2 := Option.some.inj ha2
    rw [← h2]
    refine ⟨rfl, rfl, ?_, ?_⟩
    · show (if a.peakViewers < a.currentViewers + 1 then a.currentViewers + 1
        else a.peakViewers) = max a.peakViewers (a.currentViewers + 1)
      split_ifs with h <;> omega
    · show a.uniqueViewers +
        (if (!hasCompletedSession ((mapLookup s.viewerSessions roomName).getD [])
            viewerID) = true then 1 else 0) = _
      cases hU : hasCompletedSession ((mapLookup s.viewerSessions roomName).getD [])
          viewerID <;> simp [hU]
  · rfl

/-- C1, witness: the first join of alice against the freshly started record. -/
theorem c1_join_semantics_witness :
    anRecJoined.currentViewers = anRecStarted.currentViewers + 1 ∧
    anRecJoined.totalViewers = anRecStarted.totalViewers + 1 ∧
    anRecJoined.peakViewers = max anRecStarted.peakViewers
      (anRecStarted.currentViewers + 1) ∧
    anRecJoined.uniqueViewers =
      (if hasCompletedSession
          ((mapLookup anStateStarted.viewerSessions "r3").getD []) "alice"
       then anRecStarted.uniqueViewers else anRecStarted.uniqueViewers + 1) :=
  c1_join_semantics.1 anStateStarted 1 "r3" "alice" "" "" "" "" anStateJoined
    anRecStarted anRecJoined rfl rfl rfl

/-! ## Claim C2: the reaction per-second rate limit -/

/-- C2, counterexample: of four `send_reaction` calls from one identity within
100 ms (default config, `max_per_second = 3`), exactly 1 succeeds and 3 fail
`rate_limited` — not 3 and 1 as claimed: the per-second gate demands a ≈333 ms
gap since the last accepted reaction, so the whole burst after the first call
is rejected. -/
theorem c2_burst_counterexample :
    reactionBurstResults.map reactionErrOf =
      [none, some .rateLimitedPerSecond, some .rateLimitedPerSecond,
        some .rateLimitedPerSecond] ∧
    reactionBurstResults.countP (fun r => (reactionErrOf r).isNone) = 1 ∧
    (1 : Nat) ≠ 3 :=
  ⟨rfl, rfl, by omega⟩

/-- C2, amended: with rate limiting enabled, a sender with an existing
rate-limit counter is accepted only when `1s / max_per_second` (Go's truncated
duration division) has elapsed since the last accepted reaction; in the
literal burst of four calls within 100 ms exactly 1 succeeds and 3 fail
`rate_limited`. -/
theorem c2_per_second_gap :
    (∀ (rs : ReactionService) (now : Int) (roomName userID userName ty : String)
       (pos : Option ReactionPosition) (room : ReactionRoom) (rl : RateLimit)
       (r : Reaction),
      rs.config.enableRateLimit = true →
      mapLookup rs.rooms roomName = some room →
      mapLookup room.rateLimits userID = some rl →
      (rs.SendReaction now roomName userID userName ty pos).1 = .ok r →
      Int.tdiv nsPerSecond rs.config.maxReactionsPerSecond ≤ now - rl.lastReaction) ∧
    reactionBurstResults.map reactionErrOf =
      [none, some .rateLimitedPerSecond, some .rateLimitedPerSecond,
        some .rateLimitedPerSecond] := by
  constructor
  · intro rs now roomName userID userName ty pos room rl r hen hroom hrl hok
    simp only [ReactionService.SendReaction, hroom, hen, checkRateLimit, hrl]
      at hok
    by_cases hgap : now - rl.lastReaction <
        Int.tdiv nsPerSecond rs.config.maxReactionsPerSecond
    · rw [if_pos hgap] at hok
      simp at hok
    · omega
  · rfl

/-- C2, witness: a send exactly one second after the last accepted reaction is
accepted, certifying the gap bound. -/
theorem c2_per_second_gap_witness :
    Int.tdiv nsPerSecond gapService.config.maxReactionsPerSecond
      ≤ 1000000000 - (0 : Int) :=
  c2_per_second_gap.1 gapService 1000000000 "r" "u1" "U" "heart" none gapRoom
    { lastReaction := 0, count := 1, windowStart := 0 }
    { id := "reaction-" ++ toString (1000000000 : Int) ++ "-" ++ "u1",
      roomName := "r", userID := "u1", userName := "U", type := "heart",
      timestamp := 1000000000, position := none }
    rfl rfl rfl rfl

end Streaming
